import Mathlib

/-!
Verification of the dynamic filter-and-query builder of the product-catalog
MCP server (`local_mcp_server.py`).  The definitions below are a shallow
embedding of the `filter_products`, `update_stock`, `search_products` and
`get_filter_stats` branches of `handle_call_tool`, together with the row
store they query.  Theorems check the specified properties of the filter
compiler, search overlay, ordering compiler, query assembler (pagination),
mutation op and stats aggregator against these definitions.
-/

namespace McpDemo

/-- One row of the `products` table (§6 of the catalog-store schema).
Text columns default to the empty string (never NULL); `stock` and
`suggested_price` are nullable.  `updated_at` is an abstract timestamp
counter; currency values are abstracted to integers (no claim depends on
sub-unit granularity). -/
structure Row where
  sku : String
  style : String
  product_title : String
  product_description : String
  category_name : String
  subcategory_name : String
  color_name : String
  size : String
  stock : Option Int
  suggested_price : Option Int
  warehouse : String
  product_status : String
  updated_at : Nat
  deriving DecidableEq, Repr, Inhabited

/-- A JSON-ish filter value as received by `handle_call_tool`:
`null`, a string, an integer, or a list of strings. -/
inductive FVal where
  | null
  | s (v : String)
  | i (v : Int)
  | l (vs : List String)
  deriving DecidableEq, Repr

/-- A value bound to a `%s` placeholder of a parameterized query. -/
inductive Param where
  | s (v : String)
  | i (v : Int)
  deriving DecidableEq, Repr

/-- Textual rendering of a filter value, as Python f-string interpolation
produces it for `f"%{filter_value}%"`. -/
def FVal.render : FVal → String
  | .null => "None"
  | .s v => v
  | .i v => toString v
  | .l _ => ""

/-! ## LIKE / ILIKE pattern matching

SQL `LIKE` semantics: `%` matches any (possibly empty) character sequence,
`_` matches exactly one character, any other pattern character matches
itself; `ILIKE` compares case-insensitively.  The `%` case succeeds iff the
rest of the pattern matches some suffix of the text. -/

def likeMatch : List Char → List Char → Bool
  | [], t => t.isEmpty
  | '%' :: ps, t => (t.tails).any (fun suf => likeMatch ps suf)
  | '_' :: ps, t =>
    match t with
    | [] => false
    | _ :: ts => likeMatch ps ts
  | c :: ps, t =>
    match t with
    | [] => false
    | d :: ts => (c.toLower == d.toLower) && likeMatch ps ts

/-- `text ILIKE pat` -/
def ilike (text pat : String) : Bool :=
  likeMatch pat.toList text.toList

/-! ## Filter Compiler (`filter_products`, source lines 354–412)

Each supplied filter entry is dispatched on its key and contributes zero or
one predicate fragment plus its bound parameters, in iteration order.  An
entry whose value is `None` or `""` is skipped; an unmatched key falls off
the end of the `if`/`elif` chain and contributes nothing. -/

/-- `",".join(["%s"] * n)` -/
def placeholderList : Nat → String
  | 0 => ""
  | 1 => "%s"
  | n + 2 => "%s," ++ placeholderList (n + 1)

/-- Predicate fragments and bound parameters contributed by one filter
entry, mirroring the `if filter_key == ...` dispatch chain. -/
def compileEntry (k : String) (v : FVal) : List String × List Param :=
  if v = FVal.null ∨ v = FVal.s "" then ([], [])
  else if k = "category__icontains" then
    (["category_name ILIKE %s"], [Param.s ("%" ++ v.render ++ "%")])
  else if k = "category__exact" then
    (["category_name = %s"], [Param.s v.render])
  else if k = "subcategory__icontains" then
    (["subcategory_name ILIKE %s"], [Param.s ("%" ++ v.render ++ "%")])
  else if k = "color__icontains" then
    (["color_name ILIKE %s"], [Param.s ("%" ++ v.render ++ "%")])
  else if k = "size__exact" then
    (["size = %s"], [Param.s v.render])
  else if k = "size__in" then
    match v with
    | FVal.l vs =>
      if vs ≠ [] then
        (["size IN (" ++ placeholderList vs.length ++ ")"], vs.map Param.s)
      else ([], [])
    | _ => ([], [])
  else if k = "stock__gte" then (["stock >= %s"], [paramOf v])
  else if k = "stock__lte" then (["stock <= %s"], [paramOf v])
  else if k = "stock__gt" then (["stock > %s"], [paramOf v])
  else if k = "stock__lt" then (["stock < %s"], [paramOf v])
  else if k = "price__gte" then (["suggested_price >= %s"], [paramOf v])
  else if k = "price__lte" then (["suggested_price <= %s"], [paramOf v])
  else if k = "title__icontains" then
    (["product_title ILIKE %s"], [Param.s ("%" ++ v.render ++ "%")])
  else if k = "sku__icontains" then
    (["sku ILIKE %s"], [Param.s ("%" ++ v.render ++ "%")])
  else if k = "warehouse__exact" then
    (["warehouse = %s"], [Param.s v.render])
  else if k = "status__exact" then
    (["product_status = %s"], [Param.s v.render])
  else ([], [])
where
  /-- A scalar filter value passed through unchanged (`params.append(filter_value)`). -/
  paramOf : FVal → Param
    | .i n => Param.i n
    | w => Param.s w.render

/-- Fold of `compileEntry` over the supplied filters, appending fragments
and parameters in iteration order. -/
def compileFilters : List (String × FVal) → List String × List Param
  | [] => ([], [])
  | (k, v) :: rest =>
    let c := compileEntry k v
    let r := compileFilters rest
    (c.1 ++ r.1, c.2 ++ r.2)

/-! ## Search Overlay (source lines 414–425) -/

/-- The composite OR-predicate added for a non-empty global search term
(whitespace normalized from the source's multi-line literal). -/
def searchCondition : String :=
  "(product_title ILIKE %s OR product_description ILIKE %s OR sku ILIKE %s OR category_name ILIKE %s OR color_name ILIKE %s)"

/-- All WHERE predicate fragments: filter-derived ones first, then the
search overlay if the term is non-empty. -/
def whereConds (fs : List (String × FVal)) (search : String) : List String :=
  (compileFilters fs).1 ++ (if search ≠ "" then [searchCondition] else [])

/-- All bound parameters, parallel to `whereConds`: the search overlay
binds five copies of the wildcarded term (`params.extend([search_param] * 5)`). -/
def queryParams (fs : List (String × FVal)) (search : String) : List Param :=
  (compileFilters fs).2 ++
    (if search ≠ "" then List.replicate 5 (Param.s ("%" ++ search ++ "%")) else [])

/-- `where_clause = "WHERE " + " AND ".join(where_conditions)` when any
condition exists, else the empty string. -/
def whereClause (fs : List (String × FVal)) (search : String) : String :=
  if whereConds fs search = [] then ""
  else "WHERE " ++ String.intercalate " AND " (whereConds fs search)

/-! ## Row-level semantics of the compiled predicates

What each compiled predicate means on one stored row, used to model the
store's evaluation of the assembled WHERE clause.  Entries that compile to
no fragment place no constraint on the row (they evaluate to `true`).
Type-mismatched scalar parameters (e.g. a string bound to a numeric
comparison) are outside the model: the store would reject the statement. -/

/-- Row-level meaning of the predicate contributed by one filter entry. -/
def evalEntry (k : String) (v : FVal) (r : Row) : Bool :=
  if v = FVal.null ∨ v = FVal.s "" then true
  else if k = "category__icontains" then ilike r.category_name ("%" ++ v.render ++ "%")
  else if k = "category__exact" then r.category_name = v.render
  else if k = "subcategory__icontains" then ilike r.subcategory_name ("%" ++ v.render ++ "%")
  else if k = "color__icontains" then ilike r.color_name ("%" ++ v.render ++ "%")
  else if k = "size__exact" then r.size = v.render
  else if k = "size__in" then
    match v with
    | FVal.l vs => if vs ≠ [] then vs.contains r.size else true
    | _ => true
  else if k = "stock__gte" then
    match r.stock, v with | some st, FVal.i n => st ≥ n | _, _ => false
  else if k = "stock__lte" then
    match r.stock, v with | some st, FVal.i n => st ≤ n | _, _ => false
  else if k = "stock__gt" then
    match r.stock, v with | some st, FVal.i n => st > n | _, _ => false
  else if k = "stock__lt" then
    match r.stock, v with | some st, FVal.i n => st < n | _, _ => false
  else if k = "price__gte" then
    match r.suggested_price, v with | some p, FVal.i n => p ≥ n | _, _ => false
  else if k = "price__lte" then
    match r.suggested_price, v with | some p, FVal.i n => p ≤ n | _, _ => false
  else if k = "title__icontains" then ilike r.product_title ("%" ++ v.render ++ "%")
  else if k = "sku__icontains" then ilike r.sku ("%" ++ v.render ++ "%")
  else if k = "warehouse__exact" then r.warehouse = v.render
  else if k = "status__exact" then r.product_status = v.render
  else true

/-- A row satisfies the AND of all filter-derived predicates. -/
def evalFilters (fs : List (String × FVal)) (r : Row) : Bool :=
  fs.all (fun e => evalEntry e.1 e.2 r)

/-- Row-level meaning of the search overlay: with an empty term no
predicate is added, otherwise the five-column case-insensitive OR. -/
def evalSearch (search : String) (r : Row) : Bool :=
  if search = "" then true
  else
    let pat := "%" ++ search ++ "%"
    ilike r.product_title pat || ilike r.product_description pat ||
      ilike r.sku pat || ilike r.category_name pat || ilike r.color_name pat

/-- The logical row set the count query and the page query both range
over: rows satisfying every filter predicate and the search overlay. -/
def matchingRows (store : List Row) (fs : List (String × FVal)) (search : String) :
    List Row :=
  store.filter (fun r => evalFilters fs r && evalSearch search r)

/-! ## Ordering Compiler (source lines 432–457)

Python string operations are character-based; the two used by the source
(`field.startswith("-")`, `field[1:]`) are modelled on the character list
of the Lean string. -/

/-- `field.startswith("-")` -/
def startsWithDash (f : String) : Bool :=
  match f.data with
  | '-' :: _ => true
  | _ => false

/-- `field[1:]` -/
def dropFirst (f : String) : String :=
  String.mk (f.data.drop 1)

/-- The `field_mapping` allow-list dictionary. -/
def field_mapping : List (String × String) :=
  [("title", "product_title"), ("category", "category_name"), ("stock", "stock"),
   ("price", "suggested_price"), ("sku", "sku"), ("color", "color_name"),
   ("size", "size"), ("warehouse", "warehouse"), ("status", "product_status")]

/-- `field_mapping.get(field_name, field_name)` -/
def mapField (f : String) : String :=
  (field_mapping.lookup f).getD f

/-- One ORDER BY item, `f"{db_field} {direction}"`. -/
def orderToken (field : String) : String :=
  if startsWithDash field then mapField (dropFirst field) ++ " DESC"
  else mapField field ++ " ASC"

/-- `order_clause = "ORDER BY " + ", ".join(order_fields) if order_fields
else "ORDER BY product_title"` -/
def order_clause (ordering : List String) : String :=
  if ordering.isEmpty then "ORDER BY product_title"
  else "ORDER BY " ++ String.intercalate ", " (ordering.map orderToken)

/-! ## Row ordering semantics

Interpretation of the compiled ORDER BY items over the known storage
columns, used to model the page query's sort.  A NULL numeric value sorts
last in ascending order (the store's default `NULLS LAST`), hence first
when the item is descending.  A column name outside the schema is outside
the model (the store would reject the statement); it is interpreted as a
no-op sort key here. -/

/-- Compare two nullable integers with NULL greatest (`NULLS LAST` for ASC). -/
def cmpOpt : Option Int → Option Int → Ordering
  | none, none => .eq
  | none, some _ => .gt
  | some _, none => .lt
  | some a, some b => compare a b

/-- Compare two rows on one storage column. -/
def colCmp (c : String) (a b : Row) : Ordering :=
  if c = "sku" then compare a.sku b.sku
  else if c = "style" then compare a.style b.style
  else if c = "product_title" then compare a.product_title b.product_title
  else if c = "product_description" then compare a.product_description b.product_description
  else if c = "category_name" then compare a.category_name b.category_name
  else if c = "subcategory_name" then compare a.subcategory_name b.subcategory_name
  else if c = "color_name" then compare a.color_name b.color_name
  else if c = "size" then compare a.size b.size
  else if c = "stock" then cmpOpt a.stock b.stock
  else if c = "suggested_price" then cmpOpt a.suggested_price b.suggested_price
  else if c = "warehouse" then compare a.warehouse b.warehouse
  else if c = "product_status" then compare a.product_status b.product_status
  else .eq

/-- The compiled ORDER BY items as (column, descending?) pairs; an empty
ordering defaults to ascending title, matching `order_clause`. -/
def orderItems (ordering : List String) : List (String × Bool) :=
  if ordering.isEmpty then [("product_title", false)]
  else ordering.map (fun f =>
    if startsWithDash f then (mapField (dropFirst f), true) else (mapField f, false))

/-- Lexicographic comparison of two rows over the ORDER BY items. -/
def rowCmp (items : List (String × Bool)) (a b : Row) : Ordering :=
  match items with
  | [] => .eq
  | (c, desc) :: rest =>
    let o := colCmp c a b
    let o := if desc then o.swap else o
    match o with
    | .eq => rowCmp rest a b
    | o => o

/-- The (total, transitive) "sorts no later than" relation on rows. -/
def rowRel (items : List (String × Bool)) (a b : Row) : Prop :=
  rowCmp items a b ≠ Ordering.gt

instance (items : List (String × Bool)) : DecidableRel (rowRel items) :=
  fun a b => by unfold rowRel; infer_instance

/-! ## Query Assembler (`filter_products`, source lines 343–526) -/

/-- A parameterized SQL statement: the WHERE predicate fragments it was
assembled from, its full text, and its bound parameters in order. -/
structure SqlQuery where
  conds : List String
  text : String
  params : List Param
  deriving DecidableEq, Repr

/-- The COUNT statement (source lines 462–468). -/
def count_query (fs : List (String × FVal)) (search : String) : SqlQuery :=
  { conds := whereConds fs search
    text := "SELECT COUNT(*) FROM products " ++ whereClause fs search
    params := queryParams fs search }

/-- The page statement (source lines 471–481): same WHERE clause, plus the
ORDER BY clause and a trailing `LIMIT %s OFFSET %s` bound to
`params + [page_size, offset]`. -/
def page_query (fs : List (String × FVal)) (search : String) (ordering : List String)
    (page_size offset : Int) : SqlQuery :=
  { conds := whereConds fs search
    text := "SELECT sku, product_title, category_name, subcategory_name, color_name, size, stock, suggested_price, warehouse, product_status FROM products "
      ++ whereClause fs search ++ " " ++ order_clause ordering ++ " LIMIT %s OFFSET %s"
    params := queryParams fs search ++ [Param.i page_size, Param.i offset] }

/-- Everything `filter_products` returns: the page of rows and the
pagination metadata (page, page_size and offset are carried along for the
statements of the claims). -/
structure FilterResult where
  rows : List Row
  total_count : Nat
  total_pages : Int
  has_next : Bool
  has_previous : Bool
  page : Int
  page_size : Int
  offset : Int
  deriving DecidableEq, Repr

/-- The `filter_products` pipeline.  `pageArg`/`psArg` model
`arguments.get("page", 1)` and `arguments.get("page_size", 20)` (`none` =
key absent).  `total_pages` is Python floor division
`(total_count + page_size - 1) // page_size`, i.e. `Int.fdiv`; a zero
`page_size` raises in the source and is outside the model.  The page query
is modelled as the matching rows sorted by the compiled ORDER BY items and
sliced by LIMIT/OFFSET (negative LIMIT/OFFSET values are rejected by the
store and are outside the model). -/
def filter_products (store : List Row) (fs : List (String × FVal))
    (ordering : List String) (pageArg psArg : Option Int) (search : String) :
    FilterResult :=
  let page := pageArg.getD 1
  let page_size := psArg.getD 20
  let offset := (page - 1) * page_size
  let matching := matchingRows store fs search
  let total_count := matching.length
  let sorted := List.insertionSort (rowRel (orderItems ordering)) matching
  let rows := (sorted.drop offset.toNat).take page_size.toNat
  let total_pages := Int.fdiv ((total_count : Int) + page_size - 1) page_size
  { rows := rows
    total_count := total_count
    total_pages := total_pages
    has_next := decide (page < total_pages)
    has_previous := decide (page > 1)
    page := page
    page_size := page_size
    offset := offset }

/-! ## Mutation Op (`update_stock`, source lines 531–567) -/

inductive UpdateResult where
  | validationError (msg : String)
  | notFound
  | ok (prevTitle : String) (newStock : Int)
  deriving DecidableEq, Repr

/-- The `update_stock` branch: validate inputs, `SELECT product_title ...
WHERE sku = %s` (`fetchone` = first matching row), and on a hit `UPDATE
products SET stock = %s, updated_at = CURRENT_TIMESTAMP WHERE sku = %s`.
Returns the reply together with the store after the operation. -/
def update_stock (store : List Row) (sku : String) (stock : Option Int) (now : Nat) :
    UpdateResult × List Row :=
  if sku = "" then (.validationError "SKU is required", store)
  else
    match stock with
    | none => (.validationError "Stock amount is required", store)
    | some v =>
      match (store.filter (fun r => r.sku = sku)).head? with
      | none => (.notFound, store)
      | some p =>
        (.ok p.product_title v,
         store.map (fun r =>
           if r.sku = sku then { r with stock := some v, updated_at := now } else r))

/-! ## Ranked keyword search (`search_products`, source lines 569–621) -/

/-- The `CASE WHEN ... END` rank: SKU match → 1, else title match → 2,
else category match → 3, else 4. -/
def tier (q : String) (r : Row) : Nat :=
  let pat := "%" ++ q ++ "%"
  if ilike r.sku pat then 1
  else if ilike r.product_title pat then 2
  else if ilike r.category_name pat then 3
  else 4

/-- `ORDER BY CASE ... END, product_title`: rank first, title ascending
within equal ranks. -/
def searchRel (q : String) (a b : Row) : Prop :=
  tier q a < tier q b ∨ (tier q a = tier q b ∧ a.product_title ≤ b.product_title)

instance (q : String) : DecidableRel (searchRel q) :=
  fun a b => by unfold searchRel; infer_instance

/-- The `search_products` branch: `none` on an empty query (the source
returns "Search query is required" without touching the store), otherwise
the rows matching any of the six searched columns, ordered by the ranked
relation, truncated by LIMIT. -/
def search_products (store : List Row) (q : String) (limit : Nat) :
    Option (List Row) :=
  if q = "" then none
  else
    let pat := "%" ++ q ++ "%"
    let matching := store.filter (fun r =>
      ilike r.product_title pat || ilike r.product_description pat ||
        ilike r.sku pat || ilike r.category_name pat || ilike r.color_name pat ||
        ilike r.subcategory_name pat)
    some ((List.insertionSort (searchRel q) matching).take limit)

/-! ## Stats Aggregator (`get_filter_stats`, source lines 786–827) -/

/-- The facet `field_mapping` allow-list dictionary (requested field →
storage column). -/
def stats_field_mapping : List (String × String) :=
  [("category", "category_name"), ("subcategory", "subcategory_name"),
   ("color", "color_name"), ("size", "size"), ("warehouse", "warehouse"),
   ("status", "product_status")]

/-- Value of an allow-listed facet column on a row. -/
def colGet (c : String) (r : Row) : String :=
  if c = "category_name" then r.category_name
  else if c = "subcategory_name" then r.subcategory_name
  else if c = "color_name" then r.color_name
  else if c = "size" then r.size
  else if c = "warehouse" then r.warehouse
  else r.product_status

/-- `ORDER BY count DESC, {db_field}`: larger count first, value ascending
on equal counts. -/
def facetRel (a b : String × Nat) : Prop :=
  b.2 < a.2 ∨ (a.2 = b.2 ∧ a.1 ≤ b.1)

instance : DecidableRel facetRel :=
  fun a b => by unfold facetRel; infer_instance

/-- `SELECT {col}, COUNT(*) ... WHERE {col} != '' GROUP BY {col}`: one
pair per distinct non-empty value of the column (text columns are never
NULL in the data model, so `IS NOT NULL` is vacuous). -/
def facetPairs (store : List Row) (c : String) : List (String × Nat) :=
  (((store.map (colGet c)).filter (fun v => v ≠ "")).dedup).map
    (fun v => (v, (store.filter (fun r => colGet c r = v)).length))

/-- The grouped pairs in the query's ORDER BY order. -/
def facetSorted (store : List Row) (c : String) : List (String × Nat) :=
  List.insertionSort facetRel (facetPairs store c)

/-- `values[:15]` — the reported facet breakdown. -/
def facetTop (store : List Row) (c : String) : List (String × Nat) :=
  (facetSorted store c).take 15

/-- `... and {len(values) - 15} more` when more than 15 distinct values
exist, else no remainder line. -/
def facetMore (store : List Row) (c : String) : Option Nat :=
  if (facetSorted store c).length > 15 then some ((facetSorted store c).length - 15)
  else none

/-! ## Placeholder counting

`countPS` counts the `%s` parameter placeholders in a query fragment, for
the well-formedness claims about the assembled WHERE clause. -/

def countPS : List Char → Nat
  | [] => 0
  | [_] => 0
  | c₁ :: c₂ :: rest =>
    if c₁ = '%' ∧ c₂ = 's' then countPS rest + 1 else countPS (c₂ :: rest)

/-- Number of `%s` placeholders in a fragment. -/
def countPlaceholders (s : String) : Nat :=
  countPS s.data

theorem countPS_cons_ne {c : Char} (h : c ≠ '%') (l : List Char) :
    countPS (c :: l) = countPS l := by
  cases l with
  | nil => rfl
  | cons d l' => simp [countPS, h]

theorem countPS_append_of_no_pct {a : List Char} (h : '%' ∉ a) (b : List Char) :
    countPS (a ++ b) = countPS a + countPS b := by
  induction a with
  | nil => simp [countPS]
  | cons c a' ih =>
    have hc : c ≠ '%' := fun hcc => h (hcc ▸ List.mem_cons_self c a')
    have ha : '%' ∉ a' := fun hm => h (List.mem_cons_of_mem c hm)
    rw [List.cons_append, countPS_cons_ne hc, countPS_cons_ne hc, ih ha]

theorem countPS_placeholderList : ∀ (n : Nat) (b : List Char),
    countPS ((placeholderList n).data ++ b) = n + countPS b
  | 0, b => by simp [placeholderList]
  | 1, b => by
    show countPS ('%' :: 's' :: b) = 1 + countPS b
    simp [countPS, Nat.add_comm]
  | n + 2, b => by
    show countPS (('%' :: 's' :: ',' :: (placeholderList (n + 1)).data) ++ b) =
      (n + 2) + countPS b
    simp only [List.cons_append]
    rw [show countPS ('%' :: 's' :: ',' :: ((placeholderList (n + 1)).data ++ b)) =
          countPS (',' :: ((placeholderList (n + 1)).data ++ b)) + 1 by
        simp [countPS]]
    rw [countPS_cons_ne (by decide) _, countPS_placeholderList (n + 1) b]
    omega

theorem countPlaceholders_sizeIn (n : Nat) :
    countPlaceholders ("size IN (" ++ placeholderList n ++ ")") = n := by
  unfold countPlaceholders
  rw [String.data_append, String.data_append, List.append_assoc,
    countPS_append_of_no_pct (a := ("size IN (" : String).data) (by decide),
    countPS_placeholderList n]
  simp only [show countPS ("size IN (" : String).data = 0 from rfl,
    show countPS (")" : String).data = 0 from rfl]
  omega

/-- Each filter entry contributes exactly as many bound parameters as `%s`
placeholders in its predicate fragments (and in the same order: a single
fragment carries all of the entry's parameters). -/
theorem compileEntry_arity (k : String) (v : FVal) :
    ((compileEntry k v).1.map countPlaceholders).sum = (compileEntry k v).2.length := by
  by_cases h0 : v = FVal.null ∨ v = FVal.s ""
  · simp only [compileEntry, if_pos h0]; rfl
  simp only [compileEntry, if_neg h0]
  by_cases h1 : k = "category__icontains"
  · simp only [if_pos h1]; rfl
  simp only [if_neg h1]
  by_cases h2 : k = "category__exact"
  · simp only [if_pos h2]; rfl
  simp only [if_neg h2]
  by_cases h3 : k = "subcategory__icontains"
  · simp only [if_pos h3]; rfl
  simp only [if_neg h3]
  by_cases h4 : k = "color__icontains"
  · simp only [if_pos h4]; rfl
  simp only [if_neg h4]
  by_cases h5 : k = "size__exact"
  · simp only [if_pos h5]; rfl
  simp only [if_neg h5]
  by_cases h6 : k = "size__in"
  · simp only [if_pos h6]
    cases v with
    | l vs =>
      by_cases hv : vs = []
      · simp [hv]
      · simp [if_pos hv, countPlaceholders_sizeIn]
    | null => rfl
    | s w => rfl
    | i w => rfl
  simp only [if_neg h6]
  by_cases h7 : k = "stock__gte"
  · simp only [if_pos h7]; rfl
  simp only [if_neg h7]
  by_cases h8 : k = "stock__lte"
  · simp only [if_pos h8]; rfl
  simp only [if_neg h8]
  by_cases h9 : k = "stock__gt"
  · simp only [if_pos h9]; rfl
  simp only [if_neg h9]
  by_cases h10 : k = "stock__lt"
  · simp only [if_pos h10]; rfl
  simp only [if_neg h10]
  by_cases h11 : k = "price__gte"
  · simp only [if_pos h11]; rfl
  simp only [if_neg h11]
  by_cases h12 : k = "price__lte"
  · simp only [if_pos h12]; rfl
  simp only [if_neg h12]
  by_cases h13 : k = "title__icontains"
  · simp only [if_pos h13]; rfl
  simp only [if_neg h13]
  by_cases h14 : k = "sku__icontains"
  · simp only [if_pos h14]; rfl
  simp only [if_neg h14]
  by_cases h15 : k = "warehouse__exact"
  · simp only [if_pos h15]; rfl
  simp only [if_neg h15]
  by_cases h16 : k = "status__exact"
  · simp only [if_pos h16]; rfl
  simp only [if_neg h16]
  rfl

theorem compileFilters_append (a b : List (String × FVal)) :
    compileFilters (a ++ b) =
      ((compileFilters a).1 ++ (compileFilters b).1,
       (compileFilters a).2 ++ (compileFilters b).2) := by
  induction a with
  | nil => simp [compileFilters]
  | cons e a' ih => simp [compileFilters, ih, List.append_assoc]

/-- CLAIM C10: for every FilterSpec and search term, the assembled WHERE
clause is well-formed with respect to its parameters: the predicate
fragments contain exactly as many `%s` placeholders as there are bound
parameter values (the fragment list and the parameter list are parallel
concatenations of the per-entry contributions, in iteration order,
followed by the search overlay, so the parameters are bound in placeholder
order); consequently the count query binds every placeholder exactly once,
and so does the page query, whose trailing `LIMIT %s OFFSET %s` adds two
placeholders and two parameters. -/
theorem where_clause_well_formed (fs : List (String × FVal)) (search : String)
    (ordering : List String) (ps off : Int) :
    ((whereConds fs search).map countPlaceholders).sum = (queryParams fs search).length ∧
    (((count_query fs search).conds.map countPlaceholders).sum =
      (count_query fs search).params.length) ∧
    (((page_query fs search ordering ps off).conds.map countPlaceholders).sum + 2 =
      (page_query fs search ordering ps off).params.length) := by
  have main : ∀ (l : List (String × FVal)),
      ((whereConds l search).map countPlaceholders).sum = (queryParams l search).length := by
    intro l
    induction l with
    | nil =>
      by_cases h : search = "" <;>
        simp [whereConds, queryParams, compileFilters, h, countPlaceholders, searchCondition,
          countPS]
    | cons e l' ih =>
      obtain ⟨k, v⟩ := e
      have harity := compileEntry_arity k v
      simp only [whereConds, queryParams, compileFilters] at ih ⊢
      simp only [List.append_assoc, List.map_append, List.sum_append, List.length_append]
      simp only [List.append_assoc, List.map_append, List.sum_append, List.length_append] at ih
      omega
  refine ⟨main fs, ?_, ?_⟩
  · simpa [count_query] using main fs
  · have h := main fs
    simp only [page_query, List.length_append, List.length_cons, List.length_nil]
    omega

/-- CLAIM C2: the count query and the page query are built from the same
predicate list, and the page query's parameters are exactly the count
query's parameters followed by `page_size` and `offset` for the trailing
`LIMIT %s OFFSET %s`. -/
theorem count_page_query_consistent (fs : List (String × FVal)) (search : String)
    (ordering : List String) (page_size offset : Int) :
    (page_query fs search ordering page_size offset).conds = (count_query fs search).conds ∧
    (page_query fs search ordering page_size offset).params =
      (count_query fs search).params ++ [Param.i page_size, Param.i offset] :=
  ⟨rfl, rfl⟩

/-! ## Pagination arithmetic -/

/-- Python's `(n + b - 1) // b` (floor division) is the ceiling of `n / b`
for a nonnegative numerator and positive divisor. -/
theorem fdiv_add_pred_eq_ceil (n : ℕ) (b : ℤ) (hb : 0 < b) :
    Int.fdiv ((n : ℤ) + b - 1) b = ⌈(n : ℚ) / (b : ℚ)⌉ := by
  have hbne : b ≠ 0 := hb.ne'
  have hbQ : (0 : ℚ) < (b : ℚ) := by exact_mod_cast hb
  rw [Int.fdiv_eq_ediv _ hb.le]
  set z : ℤ := ((n : ℤ) + b - 1) / b with hz
  have h1 : z * b ≤ (n : ℤ) + b - 1 := Int.ediv_mul_le _ hbne
  have h2 : (n : ℤ) + b - 1 < z * b + b := by
    have := Int.lt_ediv_add_one_mul_self ((n : ℤ) + b - 1) hb
    rw [add_mul, one_mul] at this
    exact this
  have g1 : z * b - b < (n : ℤ) := by omega
  have g2 : (n : ℤ) ≤ z * b := by omega
  symm
  rw [Int.ceil_eq_iff]
  constructor
  · rw [show ((z : ℚ) - 1) = ((z - 1 : ℤ) : ℚ) by push_cast; ring]
    rw [lt_div_iff₀ hbQ]
    rw [show ((z - 1 : ℤ) : ℚ) * (b : ℚ) = (((z - 1) * b : ℤ) : ℚ) by push_cast; ring]
    rw [sub_one_mul]
    exact_mod_cast g1
  · rw [div_le_iff₀ hbQ]
    rw [show ((z : ℚ) * (b : ℚ)) = ((z * b : ℤ) : ℚ) by push_cast; ring]
    exact_mod_cast g2

/-- CLAIM C1 is false as stated: `has_previous` is computed as
`page > 1` unconditionally, so a call with `page = 2`, `page_size = 10`
over an empty result set reports `has_previous = true` even though
`total_count = 0` (the claim demands `has_previous = false` whenever
`total_count = 0`). -/
theorem pagination_empty_page2_counterexample :
    0 < (filter_products [] [] ["title"] (some 2) (some 10) "").page ∧
    0 < (filter_products [] [] ["title"] (some 2) (some 10) "").page_size ∧
    (filter_products [] [] ["title"] (some 2) (some 10) "").total_count = 0 ∧
    (filter_products [] [] ["title"] (some 2) (some 10) "").has_previous = true := by
  decide

/-- CLAIM C1 (amended): for every `filter_products` call with effective
`page > 0` and `page_size > 0`, `total_pages = ceil(total_count /
page_size)`, `has_previous = (page > 1)` and `has_next = (page <
total_pages)`; when `total_count = 0` the result has `total_pages = 0`,
`has_next = false` and an empty row list, with no division by zero, and
`has_previous = false` when additionally `page = 1` (a `page > 1` request
over an empty result still reports `has_previous = true`). -/
theorem pagination_metadata (store : List Row) (fs : List (String × FVal))
    (ordering : List String) (pa psa : Option Int) (search : String)
    (hpage : 0 < pa.getD 1) (hps : 0 < psa.getD 20) :
    let res := filter_products store fs ordering pa psa search
    res.total_pages = ⌈(res.total_count : ℚ) / (res.page_size : ℚ)⌉ ∧
    res.has_previous = decide (res.page > 1) ∧
    res.has_next = decide (res.page < res.total_pages) ∧
    (res.total_count = 0 →
      res.total_pages = 0 ∧ res.has_next = false ∧ res.rows = [] ∧
      (res.page = 1 → res.has_previous = false)) := by
  intro res
  have htp : res.total_pages =
      Int.fdiv ((res.total_count : ℤ) + psa.getD 20 - 1) (psa.getD 20) := rfl
  have hpsz : res.page_size = psa.getD 20 := rfl
  refine ⟨?_, rfl, rfl, ?_⟩
  · rw [htp, hpsz]
    exact fdiv_add_pred_eq_ceil _ _ hps
  · intro h0
    have htp0 : res.total_pages = 0 := by
      rw [htp, h0]
      rw [Int.fdiv_eq_ediv _ hps.le]
      exact Int.ediv_eq_zero_of_lt (by omega) (by omega)
    refine ⟨htp0, ?_, ?_, ?_⟩
    · have : res.has_next = decide (res.page < res.total_pages) := rfl
      rw [this, htp0]
      have hpg : res.page = pa.getD 1 := rfl
      rw [hpg]
      exact decide_eq_false (by omega)
    · have hm : matchingRows store fs search = [] :=
        List.length_eq_zero.mp h0
      show ((List.insertionSort _ (matchingRows store fs search)).drop _).take _ = []
      rw [hm]
      simp
    · intro h1
      have : res.has_previous = decide (res.page > 1) := rfl
      rw [this, h1]
      decide

/-- Witness for `pagination_metadata` at a concrete call. -/
theorem pagination_metadata_witness :
    (0 < (some 1 : Option Int).getD 1 ∧ 0 < (some 10 : Option Int).getD 20) ∧
    (let res := filter_products [] [] ["title"] (some 1) (some 10) ""
     res.total_pages = ⌈(res.total_count : ℚ) / (res.page_size : ℚ)⌉ ∧
     res.has_previous = decide (res.page > 1) ∧
     res.has_next = decide (res.page < res.total_pages) ∧
     (res.total_count = 0 →
       res.total_pages = 0 ∧ res.has_next = false ∧ res.rows = [] ∧
       (res.page = 1 → res.has_previous = false))) :=
  ⟨⟨by decide, by decide⟩,
   pagination_metadata [] [] ["title"] (some 1) (some 10) "" (by decide) (by decide)⟩

/-- CLAIM C7 is false as stated: a supplied non-positive page number is
NOT defaulted to 1 — `arguments.get("page", 1)` only substitutes the
default when the key is absent.  With `page = 0` the call keeps page 0 and
computes offset `(0 - 1) * 20 = -20` (the claim would require page 1 and
offset 0). -/
theorem page_zero_not_defaulted_counterexample :
    (filter_products [] [] ["title"] (some 0) none "").page = 0 ∧
    (filter_products [] [] ["title"] (some 0) none "").offset = -20 := by
  decide

/-- CLAIM C7 (amended): the page number defaults to 1 only when absent
(a supplied non-positive page is used as given), the page size defaults
to 20 when absent (its positivity is not validated), and the page query's
offset equals `(page − 1) × page_size`. -/
theorem page_defaults (store : List Row) (fs : List (String × FVal))
    (ordering : List String) (pa psa : Option Int) (search : String) :
    let res := filter_products store fs ordering pa psa search
    (pa = none → res.page = 1) ∧ (psa = none → res.page_size = 20) ∧
    res.offset = (res.page - 1) * res.page_size := by
  intro res
  exact ⟨fun h => by rw [show res.page = pa.getD 1 from rfl, h]; rfl,
         fun h => by rw [show res.page_size = psa.getD 20 from rfl, h]; rfl,
         rfl⟩

/-- Witness for `page_defaults` at a concrete call with both arguments
absent. -/
theorem page_defaults_witness :
    (filter_products [] [] ["title"] none none "").page = 1 ∧
    (filter_products [] [] ["title"] none none "").page_size = 20 ∧
    (filter_products [] [] ["title"] none none "").offset =
      ((filter_products [] [] ["title"] none none "").page - 1) *
        (filter_products [] [] ["title"] none none "").page_size :=
  ⟨(page_defaults [] [] ["title"] none none "").1 rfl,
   (page_defaults [] [] ["title"] none none "").2.1 rfl,
   (page_defaults [] [] ["title"] none none "").2.2⟩

/-! ## Search overlay (C5) -/

/-- CLAIM C5: a non-empty search term appends exactly one composite
OR-predicate over the five text columns after all filter-derived
predicates, with five bound copies of the wildcarded term, and the
predicate is ANDed with the others, so the searched result set is a
subset of the filtered result set. -/
theorem search_overlay (store : List Row) (fs : List (String × FVal))
    (search : String) (h : search ≠ "") :
    whereConds fs search = (compileFilters fs).1 ++ [searchCondition] ∧
    queryParams fs search =
      (compileFilters fs).2 ++ List.replicate 5 (Param.s ("%" ++ search ++ "%")) ∧
    matchingRows store fs search ⊆ matchingRows store fs "" := by
  refine ⟨by simp [whereConds, h], by simp [queryParams, h], ?_⟩
  intro r hr
  simp only [matchingRows, List.mem_filter, Bool.and_eq_true] at hr ⊢
  exact ⟨hr.1, hr.2.1, by simp [evalSearch]⟩

/-- Witness for `search_overlay` at a concrete call. -/
theorem search_overlay_witness :
    ("x" : String) ≠ "" ∧
    (whereConds [] "x" = (compileFilters []).1 ++ [searchCondition] ∧
     queryParams [] "x" =
       (compileFilters []).2 ++ List.replicate 5 (Param.s ("%" ++ "x" ++ "%")) ∧
     matchingRows [] [] "x" ⊆ matchingRows [] [] "") :=
  ⟨by decide, search_overlay [] [] "x" (by decide)⟩

/-! ## Silently ignored filter entries (C4) -/

/-- Whether a filter value is a JSON list (`isinstance(filter_value, list)`). -/
def isListVal : FVal → Bool
  | .l _ => true
  | _ => false

/-- The filter keys recognized by the dispatch chain. -/
def filterKeys : List String :=
  ["category__icontains", "category__exact", "subcategory__icontains",
   "color__icontains", "size__exact", "size__in", "stock__gte", "stock__lte",
   "stock__gt", "stock__lt", "price__gte", "price__lte", "title__icontains",
   "sku__icontains", "warehouse__exact", "status__exact"]

/-- A filter entry that the claim says must be silently ignored: value
`null` or empty string, unknown key, or an `in` filter whose value is not
a list or is the empty list. -/
def IgnorableEntry (k : String) (v : FVal) : Prop :=
  v = FVal.null ∨ v = FVal.s "" ∨ k ∉ filterKeys ∨
    (k = "size__in" ∧ (isListVal v = false ∨ v = FVal.l []))

instance (k : String) (v : FVal) : Decidable (IgnorableEntry k v) := by
  unfold IgnorableEntry
  infer_instance

/-- An ignorable entry contributes no predicate fragment and no
parameters, and places no constraint on any row. -/
theorem ignorable_entry_inert (k : String) (v : FVal) (h : IgnorableEntry k v) :
    compileEntry k v = ([], []) ∧ ∀ r : Row, evalEntry k v r = true := by
  by_cases hv : v = FVal.null ∨ v = FVal.s ""
  · constructor
    · unfold compileEntry
      rw [if_pos hv]
    · intro r
      unfold evalEntry
      rw [if_pos hv]
  rcases h with h | h | h | ⟨hk, hbad⟩
  · exact absurd (Or.inl h) hv
  · exact absurd (Or.inr h) hv
  · simp only [filterKeys, List.mem_cons, List.not_mem_nil, or_false, not_or] at h
    obtain ⟨h1, h2, h3, h4, h5, h6, h7, h8, h9, h10, h11, h12, h13, h14, h15, h16⟩ := h
    constructor
    · unfold compileEntry
      rw [if_neg hv, if_neg h1, if_neg h2, if_neg h3, if_neg h4, if_neg h5, if_neg h6,
        if_neg h7, if_neg h8, if_neg h9, if_neg h10, if_neg h11, if_neg h12, if_neg h13,
        if_neg h14, if_neg h15, if_neg h16]
    · intro r
      unfold evalEntry
      rw [if_neg hv, if_neg h1, if_neg h2, if_neg h3, if_neg h4, if_neg h5, if_neg h6,
        if_neg h7, if_neg h8, if_neg h9, if_neg h10, if_neg h11, if_neg h12, if_neg h13,
        if_neg h14, if_neg h15, if_neg h16]
  · subst hk
    have step :
        ∀ w : FVal, ¬(w = FVal.null ∨ w = FVal.s "") →
          compileEntry "size__in" w =
            (match w with
             | FVal.l vs =>
               if vs ≠ [] then
                 (["size IN (" ++ placeholderList vs.length ++ ")"], vs.map Param.s)
               else ([], [])
             | _ => ([], [])) ∧
          ∀ r : Row, evalEntry "size__in" w r =
            (match w with
             | FVal.l vs => if vs ≠ [] then vs.contains r.size else true
             | _ => true) := by
      intro w hw
      constructor
      · unfold compileEntry
        rw [if_neg hw, if_neg (by decide), if_neg (by decide), if_neg (by decide),
          if_neg (by decide), if_neg (by decide), if_pos rfl]
      · intro r
        unfold evalEntry
        rw [if_neg hw, if_neg (by decide), if_neg (by decide), if_neg (by decide),
          if_neg (by decide), if_neg (by decide), if_pos rfl]
    cases v with
    | l vs =>
      have hvs : vs = [] := by
        rcases hbad with hb | hb
        · simp [isListVal] at hb
        · exact FVal.l.inj hb
      subst hvs
      obtain ⟨s1, s2⟩ := step (FVal.l []) hv
      exact ⟨by rw [s1]; rfl, fun r => by rw [s2 r]; rfl⟩
    | null => exact absurd (Or.inl rfl) hv
    | s w =>
      obtain ⟨s1, s2⟩ := step (FVal.s w) hv
      exact ⟨by rw [s1], fun r => by rw [s2 r]⟩
    | i w =>
      obtain ⟨s1, s2⟩ := step (FVal.i w) hv
      exact ⟨by rw [s1], fun r => by rw [s2 r]⟩

/-- CLAIM C4: a filter entry whose value is null or the empty string, an
entry with an unknown key, and an `in` filter whose value is an empty
list or not a list each contribute no predicate and no parameters: the
compiled WHERE fragments, the bound parameters and the whole
`filter_products` result are identical to the same call with that entry
omitted. -/
theorem ignored_entry_no_effect (store : List Row) (ordering : List String)
    (pa psa : Option Int) (search : String)
    (pre post : List (String × FVal)) (k : String) (v : FVal)
    (h : IgnorableEntry k v) :
    whereConds (pre ++ (k, v) :: post) search = whereConds (pre ++ post) search ∧
    queryParams (pre ++ (k, v) :: post) search = queryParams (pre ++ post) search ∧
    filter_products store (pre ++ (k, v) :: post) ordering pa psa search =
      filter_products store (pre ++ post) ordering pa psa search := by
  obtain ⟨hc, he⟩ := ignorable_entry_inert k v h
  have h1 : compileFilters (pre ++ (k, v) :: post) = compileFilters (pre ++ post) := by
    rw [compileFilters_append, compileFilters_append]
    simp [compileFilters, hc]
  have h2 : matchingRows store (pre ++ (k, v) :: post) search =
      matchingRows store (pre ++ post) search := by
    unfold matchingRows
    have hfun : ∀ r : Row,
        (evalFilters (pre ++ (k, v) :: post) r && evalSearch search r) =
          (evalFilters (pre ++ post) r && evalSearch search r) := by
      intro r
      simp [evalFilters, List.all_append, List.all_cons, he r]
    rw [funext hfun]
  refine ⟨by simp [whereConds, h1], by simp [queryParams, h1], ?_⟩
  simp only [filter_products, h2]

/-- Witness for `ignored_entry_no_effect`: an unknown filter key. -/
theorem ignored_entry_witness :
    IgnorableEntry "bogus__key" (FVal.s "x") ∧
    filter_products [] ([] ++ ("bogus__key", FVal.s "x") :: []) ["title"] none none "" =
      filter_products [] ([] ++ []) ["title"] none none "" :=
  ⟨by decide,
   (ignored_entry_no_effect [] ["title"] none none "" [] [] "bogus__key" (FVal.s "x")
      (by decide)).2.2⟩

/-! ## Ordering compiler (C6) -/

theorem startsWithDash_dash_append (f : String) : startsWithDash ("-" ++ f) = true := by
  cases f
  rfl

theorem dropFirst_dash_append (f : String) : dropFirst ("-" ++ f) = f := by
  cases f
  rfl

/-- CLAIM C6: a minus-prefixed ordering token compiles to
`<column> DESC` and a bare token to `<column> ASC`, where the column is
the allow-list mapping of the field name when present and the field name
verbatim otherwise; the clauses are joined with commas in input order, and
an empty ordering sequence compiles to the default ascending title order. -/
theorem ordering_compiler (ordering : List String) (f d : String) :
    (field_mapping.lookup f = some d →
      orderToken ("-" ++ f) = d ++ " DESC" ∧
      (startsWithDash f = false → orderToken f = d ++ " ASC")) ∧
    (field_mapping.lookup f = none →
      orderToken ("-" ++ f) = f ++ " DESC" ∧
      (startsWithDash f = false → orderToken f = f ++ " ASC")) ∧
    (ordering ≠ [] →
      order_clause ordering =
        "ORDER BY " ++ String.intercalate ", " (ordering.map orderToken)) ∧
    order_clause [] = "ORDER BY product_title" := by
  refine ⟨fun h => ⟨?_, fun hb => ?_⟩, fun h => ⟨?_, fun hb => ?_⟩, fun h => ?_, rfl⟩
  · simp [orderToken, startsWithDash_dash_append, dropFirst_dash_append, mapField, h]
  · simp [orderToken, hb, mapField, h]
  · simp [orderToken, startsWithDash_dash_append, dropFirst_dash_append, mapField, h]
  · simp [orderToken, hb, mapField, h]
  · simp [order_clause, h]

/-- Witness for `ordering_compiler`: the mapped field `stock` and the
unmapped token `zzz`. -/
theorem ordering_compiler_witness :
    (field_mapping.lookup "stock" = some "stock" ∧
     orderToken ("-" ++ "stock") = "stock" ++ " DESC") ∧
    (field_mapping.lookup "zzz" = none ∧
     orderToken ("-" ++ "zzz") = "zzz" ++ " DESC" ∧
     orderToken "zzz" = "zzz" ++ " ASC") :=
  ⟨⟨by decide, ((ordering_compiler [] "stock" "stock").1 (by decide)).1⟩,
   ⟨by decide, ((ordering_compiler [] "zzz" "zzz").2.1 (by decide)).1,
    ((ordering_compiler [] "zzz" "zzz").2.1 (by decide)).2 (by decide)⟩⟩

/-! ## Mutation op (C8) -/

/-- CLAIM C8: `update_stock` with a non-empty SKU and a non-null stock
value returns NotFound and performs no write when no row has that SKU;
otherwise (the SKU being unique in the store per the data-model
invariant) it updates exactly that row's stock, refreshes its
`updated_at`, leaves every other row unchanged, and reports the row's
previous product title. -/
theorem update_stock_spec (store : List Row) (sku : String) (v : Int) (now : Nat)
    (hsku : sku ≠ "") :
    ((∀ r ∈ store, r.sku ≠ sku) →
      update_stock store sku (some v) now = (UpdateResult.notFound, store)) ∧
    (∀ p, store.filter (fun r => r.sku = sku) = [p] →
      (update_stock store sku (some v) now).1 = UpdateResult.ok p.product_title v ∧
      (update_stock store sku (some v) now).2.length = store.length ∧
      ∀ i (hi : i < store.length),
        (store[i].sku = sku →
          (update_stock store sku (some v) now).2[i]? =
            some { store[i] with stock := some v, updated_at := now }) ∧
        (store[i].sku ≠ sku →
          (update_stock store sku (some v) now).2[i]? = some store[i])) := by
  constructor
  · intro h
    have hf : store.filter (fun r => r.sku = sku) = [] := by
      rw [List.filter_eq_nil_iff]
      intro a ha
      simpa using h a ha
    unfold update_stock
    rw [if_neg hsku]
    simp [hf]
  · intro p hp
    have hhead : (store.filter (fun r => r.sku = sku)).head? = some p := by
      rw [hp]
      rfl
    have hu : update_stock store sku (some v) now =
        (UpdateResult.ok p.product_title v,
         store.map (fun r =>
           if r.sku = sku then { r with stock := some v, updated_at := now } else r)) := by
      unfold update_stock
      rw [if_neg hsku]
      simp [hhead]
    refine ⟨by rw [hu], by rw [hu]; simp, ?_⟩
    intro i hi
    constructor
    · intro hsk
      rw [hu]
      simp only [List.getElem?_map, List.getElem?_eq_getElem hi]
      simp [hsk]
    · intro hsk
      rw [hu]
      simp only [List.getElem?_map, List.getElem?_eq_getElem hi]
      simp [hsk]

/-- Row fixtures for concrete witnesses. -/
def wRow1 : Row :=
  { sku := "A1", style := "", product_title := "Blue Hoodie",
    product_description := "soft fleece", category_name := "Hoodies",
    subcategory_name := "Pullover", color_name := "Blue", size := "M",
    stock := some 5, suggested_price := some 20, warehouse := "W1",
    product_status := "active", updated_at := 0 }

def wRow2 : Row :=
  { wRow1 with
    sku := "A2"
    product_title := "Red Hoodie"
    color_name := "Red"
    stock := some 200 }

/-- Witness for `update_stock_spec`: updating an existing unique SKU. -/
theorem update_stock_witness :
    ("A1" : String) ≠ "" ∧
    [wRow1, wRow2].filter (fun r => r.sku = "A1") = [wRow1] ∧
    (update_stock [wRow1, wRow2] "A1" (some 7) 1).1 =
      UpdateResult.ok wRow1.product_title 7 :=
  ⟨by decide, by decide,
   ((update_stock_spec [wRow1, wRow2] "A1" 7 1 (by decide)).2 wRow1 (by decide)).1⟩

/-! ## Ranked keyword search (C3) -/

instance (q : String) : IsTotal Row (searchRel q) := by
  constructor
  intro a b
  unfold searchRel
  rcases Nat.lt_trichotomy (tier q a) (tier q b) with h | h | h
  · exact Or.inl (Or.inl h)
  · rcases le_total a.product_title b.product_title with ht | ht
    · exact Or.inl (Or.inr ⟨h, ht⟩)
    · exact Or.inr (Or.inr ⟨h.symm, ht⟩)
  · exact Or.inr (Or.inl h)

instance (q : String) : IsTrans Row (searchRel q) := by
  constructor
  intro a b c hab hbc
  unfold searchRel at hab hbc ⊢
  rcases hab with h1 | ⟨h1, h1t⟩ <;> rcases hbc with h2 | ⟨h2, h2t⟩
  · exact Or.inl (by omega)
  · exact Or.inl (by omega)
  · exact Or.inl (by omega)
  · exact Or.inr ⟨by omega, le_trans h1t h2t⟩

/-- CLAIM C3: in the `search_products` result every row of a strictly
smaller rank tier (SKU match = 1, title-not-SKU = 2, category-not-either
= 3, other = 4) occupies a strictly earlier position than every row of a
larger tier, and rows of equal tier are ordered by title ascending. -/
theorem search_ranking (store : List Row) (q : String) (limit : Nat)
    (res : List Row) (h : search_products store q limit = some res) :
    (∀ i j (hi : i < res.length) (hj : j < res.length),
      tier q res[i] < tier q res[j] → i < j) ∧
    (∀ i j (hi : i < res.length) (hj : j < res.length),
      i < j → tier q res[i] = tier q res[j] →
        res[i].product_title ≤ res[j].product_title) := by
  have hq : q ≠ "" := by
    intro e
    unfold search_products at h
    rw [if_pos e] at h
    cases h
  unfold search_products at h
  rw [if_neg hq] at h
  have hres : res =
      (List.insertionSort (searchRel q)
        (store.filter (fun r =>
          ilike r.product_title ("%" ++ q ++ "%") ||
            ilike r.product_description ("%" ++ q ++ "%") ||
            ilike r.sku ("%" ++ q ++ "%") ||
            ilike r.category_name ("%" ++ q ++ "%") ||
            ilike r.color_name ("%" ++ q ++ "%") ||
            ilike r.subcategory_name ("%" ++ q ++ "%")))).take limit :=
    (Option.some.inj h).symm
  have hsorted : res.Pairwise (searchRel q) := by
    rw [hres]
    exact (List.sorted_insertionSort (searchRel q) _).sublist (List.take_sublist _ _)
  rw [List.pairwise_iff_getElem] at hsorted
  constructor
  · intro i j hi hj hlt
    by_contra hij
    push_neg at hij
    rcases Nat.lt_or_eq_of_le hij with hji | hji
    · have := hsorted j i hj hi hji
      unfold searchRel at this
      rcases this with hx | ⟨hx, _⟩ <;> omega
    · subst hji
      omega
  · intro i j hi hj hij heq
    have := hsorted i j hi hj hij
    unfold searchRel at this
    rcases this with hx | ⟨_, hx⟩
    · omega
    · exact hx

/-- Rows for the ranked-search witness: a SKU match and a title match. -/
def wRowS : Row :=
  { wRow1 with
    sku := "HO-1"
    product_title := "zzz anorak" }

def wRowT : Row :=
  { wRow1 with
    sku := "B2"
    product_title := "Hoodie classic" }

/-- Witness for `search_ranking`: the SKU-matching row is returned
strictly before the title-matching row. -/
theorem search_ranking_witness :
    search_products [wRowT, wRowS] "ho" 10 = some [wRowS, wRowT] ∧ (0 : Nat) < 1 :=
  ⟨by decide,
   (search_ranking [wRowT, wRowS] "ho" 10 [wRowS, wRowT] (by decide)).1 0 1
     (by decide) (by decide) (by decide)⟩

/-! ## Stats aggregator (C9) -/

instance : IsTotal (String × Nat) facetRel := by
  constructor
  intro a b
  unfold facetRel
  rcases Nat.lt_trichotomy a.2 b.2 with h | h | h
  · exact Or.inr (Or.inl h)
  · rcases le_total a.1 b.1 with ht | ht
    · exact Or.inl (Or.inr ⟨h, ht⟩)
    · exact Or.inr (Or.inr ⟨h.symm, ht⟩)
  · exact Or.inl (Or.inl h)

instance : IsTrans (String × Nat) facetRel := by
  constructor
  intro a b c hab hbc
  unfold facetRel at hab hbc ⊢
  rcases hab with h1 | ⟨h1, h1t⟩ <;> rcases hbc with h2 | ⟨h2, h2t⟩
  · exact Or.inl (by omega)
  · exact Or.inl (by omega)
  · exact Or.inl (by omega)
  · exact Or.inr ⟨by omega, le_trans h1t h2t⟩

/-- CLAIM C9: for every requested facet field in the allow-listed set,
the facet breakdown is the list of (value, row count) pairs for the
distinct non-empty values of the mapped column — each count the number of
rows carrying that value, every distinct non-empty value present exactly
once before truncation — ordered by count descending then value
ascending, truncated to the top 15, with the remainder reported as an
explicit count exactly when more than 15 distinct values exist. -/
theorem facet_stats (store : List Row) (field c : String)
    (_h : stats_field_mapping.lookup field = some c) :
    facetTop store c = (facetSorted store c).take 15 ∧
    (facetSorted store c).Pairwise facetRel ∧
    (∀ p ∈ facetSorted store c,
      p.1 ≠ "" ∧ p.2 = (store.filter (fun r => colGet c r = p.1)).length) ∧
    ((facetSorted store c).map Prod.fst).Nodup ∧
    (∀ v, v ≠ "" → (∃ r ∈ store, colGet c r = v) →
      v ∈ (facetSorted store c).map Prod.fst) ∧
    (facetTop store c).length ≤ 15 ∧
    ((facetSorted store c).length ≤ 15 → facetMore store c = none) ∧
    (15 < (facetSorted store c).length →
      facetMore store c = some ((facetSorted store c).length - 15)) := by
  have hperm : List.Perm (facetSorted store c) (facetPairs store c) :=
    List.perm_insertionSort facetRel _
  have hfst : List.Perm ((facetSorted store c).map Prod.fst)
      (((store.map (colGet c)).filter (fun v => v ≠ "")).dedup) := by
    have : (facetPairs store c).map Prod.fst =
        ((store.map (colGet c)).filter (fun v => v ≠ "")).dedup := by
      unfold facetPairs
      rw [List.map_map]
      exact List.map_id _
    exact this ▸ hperm.map Prod.fst
  refine ⟨rfl, List.sorted_insertionSort facetRel _, ?_, ?_, ?_, ?_, ?_, ?_⟩
  · intro p hp
    have hp' : p ∈ facetPairs store c := hperm.mem_iff.mp hp
    unfold facetPairs at hp'
    rw [List.mem_map] at hp'
    obtain ⟨v, hv, rfl⟩ := hp'
    have hv' := List.mem_dedup.mp hv
    rw [List.mem_filter] at hv'
    exact ⟨by simpa using hv'.2, rfl⟩
  · exact hfst.nodup_iff.mpr (List.nodup_dedup _)
  · intro v hv hex
    obtain ⟨r, hr, hcr⟩ := hex
    rw [hfst.mem_iff]
    rw [List.mem_dedup, List.mem_filter]
    exact ⟨List.mem_map.mpr ⟨r, hr, hcr⟩, by simpa using hv⟩
  · unfold facetTop
    rw [List.length_take]
    exact min_le_left _ _
  · intro hle
    unfold facetMore
    rw [if_neg (by omega)]
  · intro hgt
    unfold facetMore
    rw [if_pos hgt]

/-- Witness for `facet_stats`: the color facet over the two fixture rows. -/
theorem facet_stats_witness :
    stats_field_mapping.lookup "color" = some "color_name" ∧
    (facetSorted [wRow1, wRow2] "color_name").Pairwise facetRel ∧
    (∀ p ∈ facetSorted [wRow1, wRow2] "color_name",
      p.1 ≠ "" ∧
      p.2 = ([wRow1, wRow2].filter (fun r => colGet "color_name" r = p.1)).length) :=
  ⟨by decide,
   (facet_stats [wRow1, wRow2] "color" "color_name" (by decide)).2.1,
   (facet_stats [wRow1, wRow2] "color" "color_name" (by decide)).2.2.1⟩

end McpDemo
